import Mathlib

/-!
Shallow embedding of the student-gradebook core (`src/transform.py` and
`src/analyze.py`) and proofs checking the specification's claims against it.

Modelling conventions:
* Python numbers are modelled as rationals (`ℚ`); the example computations in
  the spec are exact in both representations.
* A Python `dict.get` that may return `None`, and score fields that may be
  absent, are modelled as `Option ℚ`.
* A raised `KeyError` from a `config[...]` subscript is modelled as
  `Except.error (ConfigError.keyError key)`; `dict.get(key, default)` is
  modelled as `Option.getD`.
* `transform_students` mutates the records it is given and returns them;
  the embedding returns the updated records.
-/

/-- One student record.  Score fields are `Option ℚ` (absent = `none`);
`quiz_avg`, `final_grade` and `letter_grade` are the derived fields written
by `transform_students`. -/
structure Student where
  student_id : String
  first_name : String
  last_name : String
  «section» : String
  quiz1 : Option ℚ
  quiz2 : Option ℚ
  quiz3 : Option ℚ
  quiz4 : Option ℚ
  quiz5 : Option ℚ
  midterm : Option ℚ
  final : Option ℚ
  attendance_percent : Option ℚ
  quiz_avg : Option ℚ := none
  final_grade : Option ℚ := none
  letter_grade : Option String := none
deriving DecidableEq

/-- The `weights` sub-dictionary of the JSON config; each key may be absent. -/
structure WeightsCfg where
  quizzes : Option ℚ
  midterm : Option ℚ
  final : Option ℚ
  attendance : Option ℚ
deriving DecidableEq

/-- The `grade_scale` sub-dictionary of the JSON config (the `F` entry is
never read by the code, so it is not modelled). -/
structure ScaleCfg where
  A : Option ℚ
  B : Option ℚ
  C : Option ℚ
  D : Option ℚ
deriving DecidableEq

/-- The `thresholds` sub-dictionary of the JSON config. -/
structure ThresholdsCfg where
  at_risk : Option ℚ
deriving DecidableEq

/-- The JSON config as loaded by `load_config`; each top-level key may be
absent. -/
structure Config where
  weights : Option WeightsCfg
  grade_scale : Option ScaleCfg
  thresholds : Option ThresholdsCfg
deriving DecidableEq

/-- A `KeyError` raised by subscripting a config dictionary with a missing
key. -/
inductive ConfigError where
  | keyError : String → ConfigError
deriving DecidableEq

deriving instance DecidableEq for Except

/-- `d[key]` on a config dictionary: returns the value or raises `KeyError`. -/
def getKey (key : String) : Option α → Except ConfigError α
  | none => .error (.keyError key)
  | some v => .ok v

/-- `[student.get(f'quiz{i}') for i in range(1, 6)]` (transform.py line 79). -/
def quizScores (s : Student) : List (Option ℚ) :=
  [s.quiz1, s.quiz2, s.quiz3, s.quiz4, s.quiz5]

/-- `[q for q in quiz_scores if q is not None]` (transform.py line 81). -/
def validQuizzes (s : Student) : List ℚ :=
  (quizScores s).filterMap id

/-- `sum(valid_quizzes) / len(valid_quizzes) if valid_quizzes else None`
(transform.py lines 82-84). -/
def quizAvg (s : Student) : Option ℚ :=
  let valid := validQuizzes s
  if valid.isEmpty then none else some (valid.sum / (valid.length : ℚ))

/-- The `if final_grade >= scale['A'] ... else 'F'` chain (transform.py
lines 99-108).  Scale keys are subscripted lazily, exactly as Python
evaluates the `elif` chain, so a branch not reached never raises. -/
def letterOf (scale : ScaleCfg) (final_grade : ℚ) : Except ConfigError String :=
  match getKey "A" scale.A with
  | .error e => .error e
  | .ok a =>
    if a ≤ final_grade then .ok "A" else
    match getKey "B" scale.B with
    | .error e => .error e
    | .ok b =>
      if b ≤ final_grade then .ok "B" else
      match getKey "C" scale.C with
      | .error e => .error e
      | .ok c =>
        if c ≤ final_grade then .ok "C" else
        match getKey "D" scale.D with
        | .error e => .error e
        | .ok d =>
          if d ≤ final_grade then .ok "D" else .ok "F"

/-- The body of the per-student loop of `transform_students` (transform.py
lines 77-108): set `quiz_avg`; if any of quiz_avg, midterm, final,
attendance_percent is `None` set `final_grade = None` and
`letter_grade = 'N/A'`, otherwise compute the weighted final grade and the
letter grade. -/
def transformOne (weights : WeightsCfg) (scale : ScaleCfg) (student : Student) :
    Except ConfigError Student :=
  match quizAvg student, student.midterm, student.final,
      student.attendance_percent with
  | some q, some mt, some fe, some att =>
      (match getKey "quizzes" weights.quizzes with
      | .error e => .error e
      | .ok wq =>
        match getKey "midterm" weights.midterm with
        | .error e => .error e
        | .ok wm =>
          match getKey "final" weights.final with
          | .error e => .error e
          | .ok wf =>
            match getKey "attendance" weights.attendance with
            | .error e => .error e
            | .ok wa =>
              let fg := q * wq + mt * wm + fe * wf + att * wa
              match letterOf scale fg with
              | .error e => .error e
              | .ok lg =>
                .ok { student with quiz_avg := some q, final_grade := some fg,
                                   letter_grade := some lg })
  | qa, _, _, _ =>
      .ok { student with quiz_avg := qa, final_grade := none,
                         letter_grade := some "N/A" }

/-- The `for student in student_records` loop of `transform_students`,
processing the records in order and propagating a raised `KeyError`. -/
def transformList (weights : WeightsCfg) (scale : ScaleCfg) :
    List Student → Except ConfigError (List Student)
  | [] => .ok []
  | s :: rest =>
      match transformOne weights scale s with
      | .error e => .error e
      | .ok t =>
        match transformList weights scale rest with
        | .error e => .error e
        | .ok ts => .ok (t :: ts)

/-- `transform_students` (transform.py lines 68-110): empty input returns
`[]` before the config is read; otherwise `config['weights']` and
`config['grade_scale']` are subscripted and every record is processed. -/
def transform_students (config : Config) (student_records : List Student) :
    Except ConfigError (List Student) :=
  if student_records.isEmpty then .ok []
  else
    match getKey "weights" config.weights with
    | .error e => .error e
    | .ok weights =>
      match getKey "grade_scale" config.grade_scale with
      | .error e => .error e
      | .ok scale => transformList weights scale student_records

/-- `insert_student` (transform.py lines 39-42): copy, append, retransform. -/
def insert_student (config : Config) (students : List Student)
    (new_student : Student) : Except ConfigError (List Student) :=
  transform_students config (students ++ [new_student])

/-- `delete_student` (transform.py lines 59-64): empty input returns `[]`;
otherwise `df[df['student_id'] != student_id]` keeps, in order, every row
whose `student_id` differs from the argument. -/
def delete_student (students : List Student) (student_id : String) :
    List Student :=
  if students.isEmpty then []
  else students.filter (fun s => s.student_id != student_id)

/-- `load_config().get('thresholds', {}).get('at_risk', 60)` (transform.py
line 141). -/
def thresholds_at_risk (config : Config) : ℚ :=
  ((config.thresholds).bind ThresholdsCfg.at_risk).getD 60

/-- `get_at_risk_students` (transform.py lines 137-148): empty input returns
`[]` before any config read; a `None` threshold argument falls back to the
config lookup with its default of 60; rows with a defined `final_grade`
strictly below the threshold are kept and sorted ascending by
`final_grade`.  (The source sorts with pandas `sort_values`; the embedding
sorts with insertion sort, which realises the same ascending order.) -/
def get_at_risk_students (config : Config) (students : List Student)
    (threshold : Option ℚ) : List Student :=
  if students.isEmpty then []
  else
    let t := threshold.getD (thresholds_at_risk config)
    let at_risk := students.filter (fun s =>
      match s.final_grade with
      | some g => decide (g < t)
      | none => false)
    @List.insertionSort Student
      (fun a b => a.final_grade.getD 0 ≤ b.final_grade.getD 0)
      (fun a b => inferInstanceAs
        (Decidable (a.final_grade.getD 0 ≤ b.final_grade.getD 0)))
      at_risk

/-- `config` has the `weights` and `grade_scale` dictionaries with every
key the transform formula subscripts. -/
def configComplete (cfg : Config) : Bool :=
  match cfg.weights, cfg.grade_scale with
  | some w, some sc =>
      w.quizzes.isSome && w.midterm.isSome && w.final.isSome &&
      w.attendance.isSome &&
      sc.A.isSome && sc.B.isSome && sc.C.isSome && sc.D.isSome
  | _, _ => false

/-- The pure letter-grade step function the spec describes: highest
threshold first, boundary inclusive, below `D` gives `F`. -/
def letterStep (a b c d fg : ℚ) : String :=
  if a ≤ fg then "A"
  else if b ≤ fg then "B"
  else if c ≤ fg then "C"
  else if d ≤ fg then "D"
  else "F"

/-- `np.percentile(·, p)` with its default linear interpolation, stated on
the sorted data: virtual position `p/100 * (n-1)`, then linear
interpolation between the adjacent order statistics. -/
def percentile_of_sorted (s : List ℚ) (p : ℚ) : ℚ :=
  let n := s.length
  let pos := p / 100 * ((n : ℚ) - 1)
  let i := (⌊pos⌋).toNat
  let frac := pos - (⌊pos⌋ : ℚ)
  if i + 1 < n then s.getD i 0 + frac * (s.getD (i + 1) 0 - s.getD i 0)
  else s.getD i 0

/-- `np.percentile(data, p)` (analyze.py lines 101-102): sort, then
interpolate. -/
def np_percentile (data : List ℚ) (p : ℚ) : ℚ :=
  percentile_of_sorted (data.insertionSort (· ≤ ·)) p

/-- The `outlier_info` dictionary built by `identify_outliers_iqr`
(analyze.py lines 110-117). -/
structure IqrInfo where
  q1 : ℚ
  q3 : ℚ
  iqr : ℚ
  lower_bound : ℚ
  upper_bound : ℚ
  outlier_count : ℕ
deriving DecidableEq

/-- `identify_outliers_iqr` (analyze.py lines 96-119): empty data returns
`([], {})` (the empty dictionary is modelled as `none`); otherwise Q1/Q3
via `np.percentile`, bounds Q1 − 1.5·IQR and Q3 + 1.5·IQR, and the values
strictly outside the bounds. -/
def identify_outliers_iqr (data : List ℚ) : List ℚ × Option IqrInfo :=
  if data.isEmpty then ([], none)
  else
    let q1 := np_percentile data 25
    let q3 := np_percentile data 75
    let iqr := q3 - q1
    let lower_bound := q1 - 3/2 * iqr
    let upper_bound := q3 + 3/2 * iqr
    let outliers := data.filter (fun x =>
      decide (x < lower_bound) || decide (upper_bound < x))
    (outliers,
     some { q1 := q1, q3 := q3, iqr := iqr, lower_bound := lower_bound,
            upper_bound := upper_bound, outlier_count := outliers.length })

/-- The grade list `sections[sec]` built by the grouping loop of
`get_section_comparison` (analyze.py lines 199-206): the defined final
grades, in record order, of the students whose `section` equals `sec`;
a falsy (empty) section string never forms a group. -/
def sectionGroupGrades (students : List Student) (sec : String) : List ℚ :=
  (students.filter (fun s => s.«section» == sec && sec != "")).filterMap
    Student.final_grade

/-- `_get_section_letter_grades` (analyze.py lines 218-224), as the list of
letter grades the `Counter` counts: students whose `section` equals `sec`
and whose `letter_grade` is truthy (present and nonempty). -/
def _get_section_letter_grades (students : List Student) (sec : String) :
    List String :=
  (students.filter (fun s =>
    s.«section» == sec && s.letter_grade.getD "" != "")).filterMap
    Student.letter_grade

/-- The per-section entry of `get_section_comparison`'s result (`describe`
statistics omitted: no claim refers to them). -/
structure SectionStats where
  count : ℕ
  letter_grades : List String
deriving DecidableEq

/-- `get_section_comparison` (analyze.py lines 195-216) viewed at one
section key: `none` when the section collected no defined final grade (the
key is absent from the result dictionary), otherwise the grade count and
the letter-grade multiset. -/
def get_section_comparison (students : List Student) (sec : String) :
    Option SectionStats :=
  let grades := sectionGroupGrades students sec
  if grades.isEmpty then none
  else some { count := grades.length,
              letter_grades := _get_section_letter_grades students sec }

/-! ### Concrete data used to instantiate the theorems -/

/-- The spec's example weights: quizzes 0.3, midterm 0.3, final 0.3,
attendance 0.1. -/
def exampleWeights : WeightsCfg :=
  { quizzes := some (3/10), midterm := some (3/10), final := some (3/10),
    attendance := some (1/10) }

/-- The spec's example scale: A ≥ 90, B ≥ 80, C ≥ 70, D ≥ 60. -/
def exampleScale : ScaleCfg :=
  { A := some 90, B := some 80, C := some 70, D := some 60 }

/-- A config with every key present. -/
def exampleConfig : Config :=
  { weights := some exampleWeights, grade_scale := some exampleScale,
    thresholds := some { at_risk := some 60 } }

/-- The spec's example student: quiz average 95, midterm 85, final 90,
attendance 100, so final grade 91 and letter `A`. -/
def sAlex : Student :=
  { student_id := "S1", first_name := "Alex", last_name := "Stone",
    «section» := "A", quiz1 := some 95, quiz2 := some 95, quiz3 := some 95,
    quiz4 := some 95, quiz5 := some 95, midterm := some 85,
    final := some 90, attendance_percent := some 100 }

/-- A student with quizzes `[80, None, 90, None, 100]` (quiz average 90)
but no midterm, so no final grade. -/
def sNoMidterm : Student :=
  { student_id := "S2", first_name := "Bo", last_name := "Lee",
    «section» := "A", quiz1 := some 80, quiz2 := none, quiz3 := some 90,
    quiz4 := none, quiz5 := some 100, midterm := none,
    final := some 70, attendance_percent := some 80 }

/-- A second record carrying the same `student_id` as `sAlex`. -/
def sAlexDup : Student :=
  { student_id := "S1", first_name := "Alexis", last_name := "Stone",
    «section» := "B", quiz1 := some 50, quiz2 := some 50, quiz3 := some 50,
    quiz4 := some 50, quiz5 := some 50, midterm := some 50,
    final := some 50, attendance_percent := some 50 }

/-- An already-transformed record with final grade 50. -/
def t50 : Student :=
  { student_id := "R1", first_name := "Cam", last_name := "Low",
    «section» := "A", quiz1 := some 50, quiz2 := some 50, quiz3 := some 50,
    quiz4 := some 50, quiz5 := some 50, midterm := some 50,
    final := some 50, attendance_percent := some 50,
    quiz_avg := some 50, final_grade := some 50, letter_grade := some "F" }

/-- An already-transformed record with final grade 65: below nothing the
config would say, but above the hard-coded default of 60. -/
def t65 : Student :=
  { student_id := "R2", first_name := "Dee", last_name := "Mid",
    «section» := "A", quiz1 := some 65, quiz2 := some 65, quiz3 := some 65,
    quiz4 := some 65, quiz5 := some 65, midterm := some 65,
    final := some 65, attendance_percent := some 65,
    quiz_avg := some 65, final_grade := some 65, letter_grade := some "D" }

/-- A config whose `thresholds` key is absent. -/
def cfgNoThresholds : Config :=
  { weights := some exampleWeights, grade_scale := some exampleScale,
    thresholds := none }

/-- A config with no keys at all. -/
def cfgEmpty : Config :=
  { weights := none, grade_scale := none, thresholds := none }

/-- A config with `weights` but no `grade_scale`. -/
def cfgNoScale : Config :=
  { weights := some exampleWeights, grade_scale := none, thresholds := none }

/-- `sAlex` after the transform: quiz average 95, final grade 91, letter
`A`. -/
def tAlex : Student :=
  { sAlex with quiz_avg := some 95, final_grade := some 91,
               letter_grade := some "A" }

/-- `sNoMidterm` after the transform: quiz average 90 but no final grade,
letter `N/A`. -/
def tNoMidterm : Student :=
  { sNoMidterm with quiz_avg := some 90, final_grade := none,
                    letter_grade := some "N/A" }

/-- A section-`B` student with every score missing. -/
def sGhost : Student :=
  { student_id := "S9", first_name := "Gus", last_name := "Hollow",
    «section» := "B", quiz1 := none, quiz2 := none, quiz3 := none,
    quiz4 := none, quiz5 := none, midterm := none, final := none,
    attendance_percent := none }

/-- `sGhost` after the transform. -/
def tGhost : Student :=
  { sGhost with quiz_avg := none, final_grade := none,
                letter_grade := some "N/A" }

/-! ### Helper lemmas about the transformer -/

theorem transformOne_spec {w : WeightsCfg} {sc : ScaleCfg} {r t : Student}
    (h : transformOne w sc r = .ok t) :
    (t.student_id = r.student_id ∧ t.«section» = r.«section» ∧
     t.quiz1 = r.quiz1 ∧ t.quiz2 = r.quiz2 ∧ t.quiz3 = r.quiz3 ∧
     t.quiz4 = r.quiz4 ∧ t.quiz5 = r.quiz5 ∧ t.midterm = r.midterm ∧
     t.final = r.final ∧ t.attendance_percent = r.attendance_percent ∧
     t.quiz_avg = quizAvg r) ∧
    ((t.final_grade = none ∧ t.letter_grade = some "N/A" ∧
      (quizAvg r = none ∨ r.midterm = none ∨ r.final = none ∨
       r.attendance_percent = none)) ∨
     (∃ q mt fe att wq wm wf wa lg,
       quizAvg r = some q ∧ r.midterm = some mt ∧ r.final = some fe ∧
       r.attendance_percent = some att ∧
       w.quizzes = some wq ∧ w.midterm = some wm ∧ w.final = some wf ∧
       w.attendance = some wa ∧
       t.final_grade = some (q * wq + mt * wm + fe * wf + att * wa) ∧
       letterOf sc (q * wq + mt * wm + fe * wf + att * wa) = .ok lg ∧
       t.letter_grade = some lg)) := by
  unfold transformOne at h
  cases hq : quizAvg r <;> rw [hq] at h
  case none =>
    simp only [Except.ok.injEq] at h
    subst h
    simp [hq]
  case some q =>
    cases hmt : r.midterm <;> rw [hmt] at h
    case none =>
      simp only [Except.ok.injEq] at h
      subst h
      simp [hq, hmt]
    case some mt =>
      cases hfe : r.final <;> rw [hfe] at h
      case none =>
        simp only [Except.ok.injEq] at h
        subst h
        simp [hq, hfe]
      case some fe =>
        cases hatt : r.attendance_percent <;> rw [hatt] at h
        case none =>
          simp only [Except.ok.injEq] at h
          subst h
          simp [hq, hatt]
        case some att =>
          cases hwq : w.quizzes <;> simp [getKey, hwq] at h
          cases hwm : w.midterm <;> simp [getKey, hwm] at h
          cases hwf : w.final <;> simp [getKey, hwf] at h
          cases hwa : w.attendance <;> simp [getKey, hwa] at h
          rename_i wq wm wf wa
          cases hlg : letterOf sc (q * wq + mt * wm + fe * wf + att * wa) <;>
            rw [hlg] at h
          case error => exact absurd h (by simp)
          case ok lg =>
            simp only [Except.ok.injEq] at h
            subst h
            refine ⟨by simp [hq], Or.inr ?_⟩
            exact ⟨q, mt, fe, att, wq, wm, wf, wa, lg, rfl, rfl, rfl, rfl,
              rfl, rfl, rfl, rfl, by simp, hlg, by simp⟩

theorem transformList_sound {w : WeightsCfg} {sc : ScaleCfg} :
    ∀ {l out : List Student}, transformList w sc l = .ok out →
      ∀ t ∈ out, ∃ s ∈ l, transformOne w sc s = .ok t := by
  intro l
  induction l with
  | nil =>
    intro out h t ht
    simp only [transformList, Except.ok.injEq] at h
    subst h
    simp at ht
  | cons s rest ih =>
    intro out h t ht
    cases h1 : transformOne w sc s <;> rw [transformList, h1] at h
    case error => exact absurd h (by simp)
    case ok t0 =>
      cases h2 : transformList w sc rest <;> rw [h2] at h
      case error => exact absurd h (by simp)
      case ok ts =>
        simp only [Except.ok.injEq] at h
        subst h
        rcases List.mem_cons.mp ht with rfl | hmem
        · exact ⟨s, List.mem_cons_self _ _, h1⟩
        · obtain ⟨s', hs', hok⟩ := ih h2 t hmem
          exact ⟨s', List.mem_cons_of_mem _ hs', hok⟩

theorem transformList_length {w : WeightsCfg} {sc : ScaleCfg} :
    ∀ {l out : List Student}, transformList w sc l = .ok out →
      out.length = l.length := by
  intro l
  induction l with
  | nil =>
    intro out h
    simp only [transformList, Except.ok.injEq] at h
    subst h
    rfl
  | cons s rest ih =>
    intro out h
    cases h1 : transformOne w sc s <;> rw [transformList, h1] at h
    case error => exact absurd h (by simp)
    case ok t0 =>
      cases h2 : transformList w sc rest <;> rw [h2] at h
      case error => exact absurd h (by simp)
      case ok ts =>
        simp only [Except.ok.injEq] at h
        subst h
        simp [ih h2]

theorem letterOf_complete {sc : ScaleCfg} {a b c d : ℚ}
    (ha : sc.A = some a) (hb : sc.B = some b) (hc : sc.C = some c)
    (hd : sc.D = some d) (fg : ℚ) :
    letterOf sc fg = .ok (letterStep a b c d fg) := by
  unfold letterOf letterStep
  rw [ha, hb, hc, hd]
  simp only [getKey]
  split_ifs <;> rfl

theorem letterStep_cases (a b c d fg : ℚ) :
    letterStep a b c d fg = "A" ∨ letterStep a b c d fg = "B" ∨
    letterStep a b c d fg = "C" ∨ letterStep a b c d fg = "D" ∨
    letterStep a b c d fg = "F" := by
  unfold letterStep
  split_ifs <;> simp

theorem transformOne_total {w : WeightsCfg} {sc : ScaleCfg}
    {wq wm wf wa a b c d : ℚ}
    (hwq : w.quizzes = some wq) (hwm : w.midterm = some wm)
    (hwf : w.final = some wf) (hwa : w.attendance = some wa)
    (ha : sc.A = some a) (hb : sc.B = some b) (hc : sc.C = some c)
    (hd : sc.D = some d) (r : Student) :
    ∃ t, transformOne w sc r = .ok t := by
  unfold transformOne
  cases hq : quizAvg r
  case none => exact ⟨_, rfl⟩
  case some q =>
    cases hmt : r.midterm
    case none => exact ⟨_, rfl⟩
    case some mt =>
      cases hfe : r.final
      case none => exact ⟨_, rfl⟩
      case some fe =>
        cases hatt : r.attendance_percent
        case none => exact ⟨_, rfl⟩
        case some att =>
          rw [hwq, hwm, hwf, hwa]
          simp only [getKey]
          rw [letterOf_complete ha hb hc hd]
          exact ⟨_, rfl⟩

theorem transformList_total {w : WeightsCfg} {sc : ScaleCfg}
    {wq wm wf wa a b c d : ℚ}
    (hwq : w.quizzes = some wq) (hwm : w.midterm = some wm)
    (hwf : w.final = some wf) (hwa : w.attendance = some wa)
    (ha : sc.A = some a) (hb : sc.B = some b) (hc : sc.C = some c)
    (hd : sc.D = some d) :
    ∀ l : List Student, ∃ out, transformList w sc l = .ok out := by
  intro l
  induction l with
  | nil => exact ⟨[], rfl⟩
  | cons s rest ih =>
    obtain ⟨t, ht⟩ := transformOne_total hwq hwm hwf hwa ha hb hc hd s
    obtain ⟨ts, hts⟩ := ih
    exact ⟨t :: ts, by rw [transformList, ht, hts]⟩

theorem transform_students_total {cfg : Config}
    (hcfg : configComplete cfg = true) (records : List Student) :
    ∃ out, transform_students cfg records = .ok out := by
  unfold configComplete at hcfg
  cases hw : cfg.weights <;> rw [hw] at hcfg
  case none => exact absurd hcfg (by simp)
  case some w =>
    cases hsc : cfg.grade_scale <;> rw [hsc] at hcfg
    case none => exact absurd hcfg (by simp)
    case some sc =>
      simp only [Bool.and_eq_true, Option.isSome_iff_exists] at hcfg
      obtain ⟨⟨⟨⟨⟨⟨⟨⟨wq, hwq⟩, wm, hwm⟩, wf, hwf⟩, wa, hwa⟩, a, ha⟩,
        b, hb⟩, c, hc⟩, d, hd⟩ := hcfg
      by_cases hemp : records.isEmpty
      · exact ⟨[], by rw [transform_students, if_pos hemp]⟩
      · obtain ⟨out, hout⟩ :=
          transformList_total hwq hwm hwf hwa ha hb hc hd records
        refine ⟨out, ?_⟩
        rw [transform_students, if_neg hemp, hw, hsc]
        simpa [getKey] using hout

theorem transform_students_sound {cfg : Config} {records out : List Student}
    (h : transform_students cfg records = .ok out) :
    ∀ t ∈ out, ∃ w sc r, cfg.weights = some w ∧ cfg.grade_scale = some sc ∧
      r ∈ records ∧ transformOne w sc r = .ok t := by
  intro t ht
  unfold transform_students at h
  by_cases hemp : records.isEmpty
  · rw [if_pos hemp] at h
    simp only [Except.ok.injEq] at h
    subst h
    simp at ht
  · rw [if_neg hemp] at h
    cases hw : cfg.weights <;> simp [getKey, hw] at h
    cases hsc : cfg.grade_scale <;> simp [getKey, hsc] at h
    rename_i w sc
    obtain ⟨r, hr, hok⟩ := transformList_sound h t ht
    exact ⟨w, sc, r, rfl, rfl, hr, hok⟩

/-! ### Helper lemmas about percentiles -/

theorem percentile_sorted1_25 (a : ℚ) : percentile_of_sorted [a] 25 = a := by
  unfold percentile_of_sorted
  norm_num

theorem percentile_sorted1_75 (a : ℚ) : percentile_of_sorted [a] 75 = a := by
  unfold percentile_of_sorted
  norm_num

theorem percentile_sorted2_25 (a b : ℚ) :
    percentile_of_sorted [a, b] 25 = a + 1/4 * (b - a) := by
  unfold percentile_of_sorted
  norm_num [List.getD]

theorem percentile_sorted2_75 (a b : ℚ) :
    percentile_of_sorted [a, b] 75 = a + 3/4 * (b - a) := by
  unfold percentile_of_sorted
  norm_num [List.getD]

theorem percentile_sorted3_25 (a b c : ℚ) :
    percentile_of_sorted [a, b, c] 25 = a + 1/2 * (b - a) := by
  unfold percentile_of_sorted
  norm_num [List.getD]

theorem percentile_sorted3_75 (a b c : ℚ) :
    percentile_of_sorted [a, b, c] 75 = b + 1/2 * (c - b) := by
  unfold percentile_of_sorted
  norm_num [List.getD]

theorem percentile_sorted9_25 (a1 a2 a3 a4 a5 a6 a7 a8 a9 : ℚ) :
    percentile_of_sorted [a1, a2, a3, a4, a5, a6, a7, a8, a9] 25 = a3 := by
  unfold percentile_of_sorted
  norm_num [List.getD]
  all_goals simp

theorem percentile_sorted9_75 (a1 a2 a3 a4 a5 a6 a7 a8 a9 : ℚ) :
    percentile_of_sorted [a1, a2, a3, a4, a5, a6, a7, a8, a9] 75 = a7 := by
  unfold percentile_of_sorted
  norm_num [List.getD]
  all_goals simp

/-! ### Claim theorems -/

/-- C10: the Transformer applied to the empty collection returns the empty
collection for every config, even one with no weight, scale or threshold
keys, so no configuration error is raised on empty input. -/
theorem c10_empty_input_reads_no_config :
    ∀ cfg : Config, transform_students cfg [] = .ok [] := by
  intro cfg
  rfl

/-- C5: `insert_student` is append-then-retransform, so its result carries
the Transformer's derived fields; on the empty collection it agrees with a
direct transform of the singleton and yields exactly one record. -/
theorem c5_insert_one_retransforms :
    (∀ (cfg : Config) (students : List Student) (new_student : Student),
      insert_student cfg students new_student =
        transform_students cfg (students ++ [new_student])) ∧
    (∀ (cfg : Config) (new_student : Student) (out : List Student),
      insert_student cfg [] new_student = .ok out →
      transform_students cfg [new_student] = .ok out ∧ out.length = 1) := by
  constructor
  · intro cfg students new_student
    rfl
  · intro cfg new_student out h
    have h' : transform_students cfg [new_student] = .ok out := h
    refine ⟨h', ?_⟩
    unfold transform_students at h'
    rw [if_neg (by simp)] at h'
    cases hw : cfg.weights <;> simp [getKey, hw] at h'
    cases hsc : cfg.grade_scale <;> simp [getKey, hsc] at h'
    simpa using transformList_length h'

/-- Witness for C5 at a concrete input: inserting the fully-specified
student `sAlex` into the empty collection. -/
theorem c5_witness :
    transform_students exampleConfig [sAlex] = .ok [tAlex] ∧
      [tAlex].length = 1 :=
  c5_insert_one_retransforms.2 exampleConfig sAlex [tAlex]
    (by simp [insert_student, transform_students, transformList, transformOne,
          quizAvg, validQuizzes, quizScores, getKey, letterOf, exampleConfig,
          exampleWeights, exampleScale, sAlex, tAlex]; norm_num)

/-- C6 counterexample: with two records sharing `student_id` `S1`,
`delete_student` removes both, not only the first, so the later duplicate
is not left in place. -/
theorem c6_counterexample :
    delete_student [sAlex, sAlexDup] "S1" = [] ∧
      delete_student [sAlex, sAlexDup] "S1" ≠ [sAlexDup] := by
  constructor
  · simp [delete_student, sAlex, sAlexDup]
  · intro h
    rw [show delete_student [sAlex, sAlexDup] "S1" = [] by
      simp [delete_student, sAlex, sAlexDup]] at h
    exact absurd h (by simp)

/-- C6 (amended): `delete_student` removes every record whose
`student_id` equals the given id, keeping the others in order; when no
record matches it returns the collection unchanged, raising no error. -/
theorem c6_delete_by_id :
    ∀ (students : List Student) (student_id : String),
      delete_student students student_id =
        students.filter (fun s => s.student_id != student_id) ∧
      ((∀ s ∈ students, s.student_id ≠ student_id) →
        delete_student students student_id = students) := by
  intro students student_id
  have hfil : delete_student students student_id =
      students.filter (fun s => s.student_id != student_id) := by
    unfold delete_student
    by_cases h : students.isEmpty
    · rw [if_pos h, List.isEmpty_iff.mp h]
      rfl
    · rw [if_neg h]
  refine ⟨hfil, fun hnone => ?_⟩
  rw [hfil]
  exact List.filter_eq_self.mpr fun s hs => by
    simpa [bne_iff_ne] using hnone s hs

/-- Witness for C6 at a concrete input: deleting an id that no record
carries leaves the collection unchanged. -/
theorem c6_witness :
    delete_student [sAlex, sNoMidterm] "ZZZ" = [sAlex, sNoMidterm] :=
  (c6_delete_by_id [sAlex, sNoMidterm] "ZZZ").2
    (by intro s hs; fin_cases hs <;> simp [sAlex, sNoMidterm])

/-- C3 counterexample: with the `thresholds` key absent from the config,
`get_at_risk_students` does not fail; it silently falls back to the
default threshold 60 (the student with final grade 50 is returned, the one
with final grade 65 is not). -/
theorem c3_counterexample :
    get_at_risk_students cfgNoThresholds [t50, t65] none = [t50] := by
  simp [get_at_risk_students, thresholds_at_risk, cfgNoThresholds, t50, t65,
    List.insertionSort, List.orderedInsert]

/-- C3 (amended): subscripting a missing `weights` or `grade_scale` key is
a `KeyError` surfaced to the caller whenever the Transformer runs on a
nonempty collection, but the at-risk threshold lookup does *not* fail when
the `thresholds` key is absent: it silently defaults to 60. -/
theorem c3_config_errors :
    (∀ (cfg : Config) (records : List Student), records ≠ [] →
      cfg.weights = none →
      transform_students cfg records = .error (.keyError "weights")) ∧
    (∀ (cfg : Config) (w : WeightsCfg) (records : List Student),
      records ≠ [] → cfg.weights = some w → cfg.grade_scale = none →
      transform_students cfg records = .error (.keyError "grade_scale")) ∧
    (∀ (cfg : Config) (students : List Student) (s : Student),
      cfg.thresholds = none →
      (s ∈ get_at_risk_students cfg students none ↔
        s ∈ students ∧ ∃ g, s.final_grade = some g ∧ g < 60)) := by
  refine ⟨?_, ?_, ?_⟩
  · intro cfg records hne hw
    unfold transform_students
    rw [if_neg (by simp [hne]), hw]
    rfl
  · intro cfg w records hne hw hsc
    unfold transform_students
    rw [if_neg (by simp [hne]), hw, hsc]
    rfl
  · intro cfg students s hth
    unfold get_at_risk_students
    by_cases hemp : students.isEmpty
    · rw [if_pos hemp, List.isEmpty_iff.mp hemp]
      simp
    · rw [if_neg hemp]
      have ht : (none : Option ℚ).getD (thresholds_at_risk cfg) = 60 := by
        simp [thresholds_at_risk, hth]
      rw [ht]
      rw [List.mem_insertionSort, List.mem_filter]
      cases hfg : s.final_grade <;> simp [hfg]

/-- C1: after a successful transform, `final_grade` is missing iff one of
quiz average, midterm, final or attendance is missing; when all four are
present it is exactly the weighted sum with the configured weights; and a
complete config never raises for missing per-student components. -/
theorem c1_final_grade_rule :
    (∀ (cfg : Config) (records out : List Student),
      transform_students cfg records = .ok out →
      ∀ s ∈ out,
        (s.final_grade = none ↔
          (s.quiz_avg = none ∨ s.midterm = none ∨ s.final = none ∨
           s.attendance_percent = none)) ∧
        (∀ (q mt fe att : ℚ) (w : WeightsCfg) (wq wm wf wa : ℚ),
          s.quiz_avg = some q → s.midterm = some mt → s.final = some fe →
          s.attendance_percent = some att → cfg.weights = some w →
          w.quizzes = some wq → w.midterm = some wm → w.final = some wf →
          w.attendance = some wa →
          s.final_grade = some (q * wq + mt * wm + fe * wf + att * wa))) ∧
    (∀ cfg : Config, configComplete cfg = true →
      ∀ records : List Student,
        ∃ out, transform_students cfg records = .ok out) := by
  constructor
  · intro cfg records out h s hs
    obtain ⟨w, sc, r, hw, hsc, hr, hok⟩ := transform_students_sound h s hs
    obtain ⟨⟨_, _, _, _, _, _, _, hmtf, hff, haf, hqf⟩, hcases⟩ :=
      transformOne_spec hok
    rcases hcases with ⟨hfg, _, hdisj⟩ | ⟨q, mt, fe, att, wq, wm, wf, wa, lg,
      hq, hmt, hfe, hatt, hwq, hwm, hwf, hwa, hfg, _, _⟩
    · constructor
      · rw [hfg, hqf, hmtf, hff, haf]
        exact ⟨fun _ => hdisj, fun _ => rfl⟩
      · intro q mt fe att w' wq wm wf wa hq hmt hfe hatt _ _ _ _ _
        rcases hdisj with h0 | h0 | h0 | h0
        · rw [hqf, h0] at hq; exact absurd hq (by simp)
        · rw [hmtf, h0] at hmt; exact absurd hmt (by simp)
        · rw [hff, h0] at hfe; exact absurd hfe (by simp)
        · rw [haf, h0] at hatt; exact absurd hatt (by simp)
    · constructor
      · rw [hfg, hqf, hq, hmtf, hmt, hff, hfe, haf, hatt]
        simp
      · intro q' mt' fe' att' w' wq' wm' wf' wa'
          hq' hmt' hfe' hatt' hw' hwq' hwm' hwf' hwa'
        rw [hqf, hq] at hq'
        rw [hmtf, hmt] at hmt'
        rw [hff, hfe] at hfe'
        rw [haf, hatt] at hatt'
        rw [hw] at hw'
        obtain rfl := Option.some.inj hq'
        obtain rfl := Option.some.inj hmt'
        obtain rfl := Option.some.inj hfe'
        obtain rfl := Option.some.inj hatt'
        obtain rfl := Option.some.inj hw'
        rw [hwq] at hwq'
        rw [hwm] at hwm'
        rw [hwf] at hwf'
        rw [hwa] at hwa'
        obtain rfl := Option.some.inj hwq'
        obtain rfl := Option.some.inj hwm'
        obtain rfl := Option.some.inj hwf'
        obtain rfl := Option.some.inj hwa'
        exact hfg
  · intro cfg hc records
    exact transform_students_total hc records

/-- Witness for C1 at concrete inputs: the spec's worked example (weights
0.3/0.3/0.3/0.1, components 95/85/90/100, final grade 91), a student with
a missing midterm, and totality of the complete example config. -/
theorem c1_witness :
    tAlex.final_grade =
      some (95 * (3/10) + 85 * (3/10) + 90 * (3/10) + 100 * (1/10)) ∧
    (tNoMidterm.final_grade = none ↔
      (tNoMidterm.quiz_avg = none ∨ tNoMidterm.midterm = none ∨
       tNoMidterm.final = none ∨ tNoMidterm.attendance_percent = none)) ∧
    ∃ out, transform_students exampleConfig [sAlex, sNoMidterm] = .ok out := by
  have heval : transform_students exampleConfig [sAlex, sNoMidterm] =
      .ok [tAlex, tNoMidterm] := by
    simp [transform_students, transformList, transformOne, quizAvg,
      validQuizzes, quizScores, getKey, letterOf, exampleConfig,
      exampleWeights, exampleScale, sAlex, sNoMidterm, tAlex, tNoMidterm]
    norm_num
  refine ⟨?_, ?_, c1_final_grade_rule.2 exampleConfig rfl
    [sAlex, sNoMidterm]⟩
  · exact (c1_final_grade_rule.1 exampleConfig [sAlex, sNoMidterm]
      [tAlex, tNoMidterm] heval tAlex (by simp)).2 95 85 90 100
      exampleWeights (3/10) (3/10) (3/10) (1/10) rfl rfl rfl rfl rfl
      rfl rfl rfl rfl
  · exact (c1_final_grade_rule.1 exampleConfig [sAlex, sNoMidterm]
      [tAlex, tNoMidterm] heval tNoMidterm (by simp)).1

/-- C2: after a successful transform with a fully-keyed grade scale, a
defined final grade gets the highest-first boundary-inclusive step letter
(one of A, B, C, D, F), and a missing final grade gets the distinct
marker `N/A`, which is none of the real letters. -/
theorem c2_letter_grade_step :
    ∀ (cfg : Config) (records out : List Student) (sc : ScaleCfg)
      (a b c d : ℚ),
      transform_students cfg records = .ok out →
      cfg.grade_scale = some sc →
      sc.A = some a → sc.B = some b → sc.C = some c → sc.D = some d →
      ∀ s ∈ out,
        (∀ fg, s.final_grade = some fg →
          s.letter_grade = some (letterStep a b c d fg) ∧
          (letterStep a b c d fg = "A" ∨ letterStep a b c d fg = "B" ∨
           letterStep a b c d fg = "C" ∨ letterStep a b c d fg = "D" ∨
           letterStep a b c d fg = "F")) ∧
        (s.final_grade = none →
          s.letter_grade = some "N/A" ∧ "N/A" ≠ "A" ∧ "N/A" ≠ "B" ∧
          "N/A" ≠ "C" ∧ "N/A" ≠ "D" ∧ "N/A" ≠ "F") := by
  intro cfg records out sc a b c d h hsc ha hb hc hd s hs
  obtain ⟨w, sc', r, hw, hsc', hr, hok⟩ := transform_students_sound h s hs
  rw [hsc] at hsc'
  obtain rfl := Option.some.inj hsc'
  obtain ⟨_, hcases⟩ := transformOne_spec hok
  rcases hcases with ⟨hfg, hlg, _⟩ | ⟨q, mt, fe, att, wq, wm, wf, wa, lg,
    _, _, _, _, _, _, _, _, hfg, hletter, hlg⟩
  · refine ⟨fun fg hfg' => absurd (hfg ▸ hfg') (by simp), fun _ => ?_⟩
    exact ⟨hlg, by simp, by simp, by simp, by simp, by simp⟩
  · constructor
    · intro fg hfg'
      rw [hfg] at hfg'
      obtain rfl := Option.some.inj hfg'
      rw [letterOf_complete ha hb hc hd] at hletter
      obtain rfl := Except.ok.inj hletter
      exact ⟨hlg, letterStep_cases a b c d _⟩
    · intro hnone
      rw [hfg] at hnone
      exact absurd hnone (by simp)

/-- Witness for C2 at a concrete input: the transformed example students,
where final grade 91 gets letter `A` and the student without a final
grade gets `N/A`. -/
theorem c2_witness :
    (tAlex.letter_grade = some (letterStep 90 80 70 60 91) ∧
      (letterStep 90 80 70 60 91 = "A" ∨ letterStep 90 80 70 60 91 = "B" ∨
       letterStep 90 80 70 60 91 = "C" ∨ letterStep 90 80 70 60 91 = "D" ∨
       letterStep 90 80 70 60 91 = "F")) ∧
    (tNoMidterm.letter_grade = some "N/A" ∧ "N/A" ≠ "A" ∧ "N/A" ≠ "B" ∧
      "N/A" ≠ "C" ∧ "N/A" ≠ "D" ∧ "N/A" ≠ "F") := by
  have heval : transform_students exampleConfig [sAlex, sNoMidterm] =
      .ok [tAlex, tNoMidterm] := by
    simp [transform_students, transformList, transformOne, quizAvg,
      validQuizzes, quizScores, getKey, letterOf, exampleConfig,
      exampleWeights, exampleScale, sAlex, sNoMidterm, tAlex, tNoMidterm]
    norm_num
  constructor
  · exact (c2_letter_grade_step exampleConfig [sAlex, sNoMidterm]
      [tAlex, tNoMidterm] exampleScale 90 80 70 60 heval rfl rfl rfl rfl rfl
      tAlex (by simp)).1 91 rfl
  · exact (c2_letter_grade_step exampleConfig [sAlex, sNoMidterm]
      [tAlex, tNoMidterm] exampleScale 90 80 70 60 heval rfl rfl rfl rfl rfl
      tNoMidterm (by simp)).2 rfl

/-- C4: after a successful transform, `quiz_avg` is missing iff every quiz
is missing, and otherwise equals the arithmetic mean of exactly the
present quiz scores. -/
theorem c4_quiz_avg_mean :
    ∀ (cfg : Config) (records out : List Student),
      transform_students cfg records = .ok out →
      ∀ s ∈ out,
        (s.quiz_avg = none ↔ validQuizzes s = []) ∧
        (validQuizzes s ≠ [] →
          s.quiz_avg =
            some ((validQuizzes s).sum / ((validQuizzes s).length : ℚ))) := by
  intro cfg records out h s hs
  obtain ⟨w, sc, r, hw, hsc, hr, hok⟩ := transform_students_sound h s hs
  obtain ⟨⟨_, _, hq1, hq2, hq3, hq4, hq5, _, _, _, hqf⟩, _⟩ :=
    transformOne_spec hok
  have hqs : validQuizzes s = validQuizzes r := by
    unfold validQuizzes quizScores
    rw [hq1, hq2, hq3, hq4, hq5]
  rw [hqs, hqf]
  unfold quizAvg
  by_cases hemp : (validQuizzes r).isEmpty
  · rw [if_pos hemp, List.isEmpty_iff.mp hemp]
    simp
  · rw [if_neg hemp]
    have : validQuizzes r ≠ [] := fun hn => hemp (by rw [hn]; rfl)
    simp [this]

/-- Witness for C4 at a concrete input: quizzes `[80, none, 90, none, 100]`
give quiz average `(80 + 90 + 100) / 3 = 90`. -/
theorem c4_witness :
    tNoMidterm.quiz_avg =
      some ((validQuizzes tNoMidterm).sum /
        ((validQuizzes tNoMidterm).length : ℚ)) ∧
    tNoMidterm.quiz_avg = some 90 := by
  have heval : transform_students exampleConfig [sNoMidterm] =
      .ok [tNoMidterm] := by
    simp [transform_students, transformList, transformOne, quizAvg,
      validQuizzes, quizScores, getKey, letterOf, exampleConfig,
      exampleWeights, exampleScale, sNoMidterm, tNoMidterm]
    norm_num
  refine ⟨(c4_quiz_avg_mean exampleConfig [sNoMidterm] [tNoMidterm] heval
    tNoMidterm (by simp)).2 ?_, rfl⟩
  simp [validQuizzes, quizScores, tNoMidterm, sNoMidterm]

/-- C8: `identify_outliers_iqr` returns exactly the data strictly outside
the bounds Q1 − 1.5·IQR and Q3 + 1.5·IQR (Q1/Q3 by linear-interpolation
percentile), together with those bounds and the count; any input with
fewer than 4 points yields zero outliers with no failure; and on
`[10,20,20,20,25,30,30,35,100]` the value 100 is flagged, strictly above
the upper bound 45. -/
theorem c8_iqr_outliers :
    (∀ data : List ℚ,
      (identify_outliers_iqr data).1 = data.filter (fun x =>
        decide (x < np_percentile data 25 -
          3/2 * (np_percentile data 75 - np_percentile data 25)) ||
        decide (np_percentile data 75 +
          3/2 * (np_percentile data 75 - np_percentile data 25) < x))) ∧
    (∀ data : List ℚ, data ≠ [] →
      (identify_outliers_iqr data).2 =
        some { q1 := np_percentile data 25, q3 := np_percentile data 75,
               iqr := np_percentile data 75 - np_percentile data 25,
               lower_bound := np_percentile data 25 -
                 3/2 * (np_percentile data 75 - np_percentile data 25),
               upper_bound := np_percentile data 75 +
                 3/2 * (np_percentile data 75 - np_percentile data 25),
               outlier_count := (identify_outliers_iqr data).1.length }) ∧
    (∀ data : List ℚ, data.length < 4 →
      (identify_outliers_iqr data).1 = []) ∧
    (identify_outliers_iqr [10, 20, 20, 20, 25, 30, 30, 35, 100] =
      ([100], some { q1 := 20, q3 := 30, iqr := 10, lower_bound := 5,
                     upper_bound := 45, outlier_count := 1 }) ∧
      (45 : ℚ) < 100) := by
  refine ⟨?_, ?_, ?_, ?_, by norm_num⟩
  · intro data
    by_cases hemp : data.isEmpty
    · rw [List.isEmpty_iff.mp hemp]
      rfl
    · unfold identify_outliers_iqr
      rw [if_neg hemp]
  · intro data hne
    unfold identify_outliers_iqr
    rw [if_neg (by simp [hne])]
  · intro data hlen
    by_cases hemp : data.isEmpty
    · unfold identify_outliers_iqr
      rw [if_pos hemp]
    · have hne : data ≠ [] := fun h => by simp [h] at hemp
      have hpos : 1 ≤ data.length := List.length_pos.mpr hne
      have hlens : (data.insertionSort (· ≤ ·)).length = data.length :=
        List.length_insertionSort _ data
      have hsort : List.Sorted (· ≤ ·) (data.insertionSort (· ≤ ·)) :=
        List.sorted_insertionSort _ data
      unfold identify_outliers_iqr
      rw [if_neg hemp]
      simp only []
      rw [List.filter_eq_nil_iff]
      intro x hx
      have hmem : x ∈ data.insertionSort (· ≤ ·) :=
        (List.mem_insertionSort _).mpr hx
      have h123 : data.length = 1 ∨ data.length = 2 ∨ data.length = 3 := by
        omega
      rcases h123 with hL | hL | hL
      · obtain ⟨a, hs⟩ := List.length_eq_one.mp (hlens.trans hL)
        have hq1 : np_percentile data 25 = a := by
          unfold np_percentile
          rw [hs, percentile_sorted1_25]
        have hq3 : np_percentile data 75 = a := by
          unfold np_percentile
          rw [hs, percentile_sorted1_75]
        rw [hs] at hmem
        simp at hmem
        subst hmem
        simp only [hq1, hq3, Bool.or_eq_true, decide_eq_true_eq, not_or]
        constructor <;> intro h <;> linarith
      · obtain ⟨a, b, hs⟩ := List.length_eq_two.mp (hlens.trans hL)
        have hq1 : np_percentile data 25 = a + 1/4 * (b - a) := by
          unfold np_percentile
          rw [hs, percentile_sorted2_25]
        have hq3 : np_percentile data 75 = a + 3/4 * (b - a) := by
          unfold np_percentile
          rw [hs, percentile_sorted2_75]
        rw [hs] at hmem hsort
        simp [List.sorted_cons] at hsort
        simp at hmem
        simp only [hq1, hq3, Bool.or_eq_true, decide_eq_true_eq, not_or]
        rcases hmem with rfl | rfl <;> constructor <;> intro h <;> linarith
      · obtain ⟨a, b, c, hs⟩ := List.length_eq_three.mp (hlens.trans hL)
        have hq1 : np_percentile data 25 = a + 1/2 * (b - a) := by
          unfold np_percentile
          rw [hs, percentile_sorted3_25]
        have hq3 : np_percentile data 75 = b + 1/2 * (c - b) := by
          unfold np_percentile
          rw [hs, percentile_sorted3_75]
        rw [hs] at hmem hsort
        simp [List.sorted_cons] at hsort
        simp at hmem
        obtain ⟨⟨hab, hac⟩, hbc⟩ := hsort
        simp only [hq1, hq3, Bool.or_eq_true, decide_eq_true_eq, not_or]
        rcases hmem with rfl | rfl | rfl <;> constructor <;> intro h <;>
          linarith
  · have hs : ([10, 20, 20, 20, 25, 30, 30, 35, 100] :
        List ℚ).insertionSort (· ≤ ·) =
        [10, 20, 20, 20, 25, 30, 30, 35, 100] := by
      norm_num [List.insertionSort, List.orderedInsert]
    have h1 : np_percentile [10, 20, 20, 20, 25, 30, 30, 35, 100] 25 = 20 := by
      unfold np_percentile
      rw [hs, percentile_sorted9_25]
    have h2 : np_percentile [10, 20, 20, 20, 25, 30, 30, 35, 100] 75 = 30 := by
      unfold np_percentile
      rw [hs, percentile_sorted9_75]
    unfold identify_outliers_iqr
    rw [if_neg (by simp)]
    simp only [h1, h2]
    norm_num [List.filter]

/-- Witness for C8 at a concrete input: `[50, 60, 70]` has fewer than 4
points, so no outliers and a populated bounds dictionary, with no
failure. -/
theorem c8_witness :
    (identify_outliers_iqr [(50 : ℚ), 60, 70]).1 = [] ∧
    (identify_outliers_iqr [(50 : ℚ), 60, 70]).2 =
      some { q1 := np_percentile [(50 : ℚ), 60, 70] 25,
             q3 := np_percentile [(50 : ℚ), 60, 70] 75,
             iqr := np_percentile [(50 : ℚ), 60, 70] 75 -
               np_percentile [(50 : ℚ), 60, 70] 25,
             lower_bound := np_percentile [(50 : ℚ), 60, 70] 25 -
               3/2 * (np_percentile [(50 : ℚ), 60, 70] 75 -
                 np_percentile [(50 : ℚ), 60, 70] 25),
             upper_bound := np_percentile [(50 : ℚ), 60, 70] 75 +
               3/2 * (np_percentile [(50 : ℚ), 60, 70] 75 -
                 np_percentile [(50 : ℚ), 60, 70] 25),
             outlier_count :=
               (identify_outliers_iqr [(50 : ℚ), 60, 70]).1.length } :=
  ⟨c8_iqr_outliers.2.2.1 [50, 60, 70] (by simp),
   c8_iqr_outliers.2.1 [50, 60, 70] (by simp)⟩

/-- C9 (code-bug exhibit): on a transformed roster where section `A` has
one student with a defined final grade and one without, section `B` only
students with no grade, `get_section_comparison` omits `B` and includes
`A` with `count = 1`; but the letter-grade tallies also count the `N/A`
marker (a truthy string), so they total 2, not the 1 defined-grade
student the spec requires. -/
theorem c9_section_letter_counts_bug :
    transform_students exampleConfig [sAlex, sNoMidterm, sGhost] =
      .ok [tAlex, tNoMidterm, tGhost] ∧
    get_section_comparison [tAlex, tNoMidterm, tGhost] "B" = none ∧
    get_section_comparison [tAlex, tNoMidterm, tGhost] "A" =
      some { count := 1, letter_grades := ["A", "N/A"] } ∧
    (["A", "N/A"] : List String).length ≠ 1 := by
  refine ⟨?_, ?_, ?_, by simp⟩
  · simp [transform_students, transformList, transformOne, quizAvg,
      validQuizzes, quizScores, getKey, letterOf, exampleConfig,
      exampleWeights, exampleScale, sAlex, sNoMidterm, sGhost, tAlex,
      tNoMidterm, tGhost]
    norm_num
  · simp [get_section_comparison, sectionGroupGrades, tAlex, tNoMidterm,
      tGhost, sAlex, sNoMidterm, sGhost]
  · simp [get_section_comparison, sectionGroupGrades,
      _get_section_letter_grades, tAlex, tNoMidterm, tGhost, sAlex,
      sNoMidterm, sGhost]

/-- Witness for C3 at concrete inputs: a config with no `weights` key
fails on a nonempty collection; a config with `weights` but no
`grade_scale` fails too; and with `thresholds` absent, membership in the
at-risk result is exactly a defined final grade below 60. -/
theorem c3_witness :
    transform_students cfgEmpty [sAlex] = .error (.keyError "weights") ∧
    transform_students cfgNoScale [sAlex] =
      .error (.keyError "grade_scale") ∧
    (t50 ∈ get_at_risk_students cfgNoThresholds [t50, t65] none ↔
      t50 ∈ [t50, t65] ∧ ∃ g, t50.final_grade = some g ∧ g < 60) :=
  ⟨c3_config_errors.1 cfgEmpty [sAlex] (by simp) rfl,
   c3_config_errors.2.1 cfgNoScale exampleWeights [sAlex] (by simp) rfl rfl,
   c3_config_errors.2.2 cfgNoThresholds [t50, t65] t50 rfl⟩
